import Mathlib

/-!
Verification of the dual-store conversation/feedback synchronization layer
of the faq_bot repository.

The Conversation Store (class AzureCosmosClass, cosmos_db.py) keeps one
document per conversation id, holding an ordered list of turns; the
Thread/Step Store (class CustomDataLayer, data_layer.py) keeps one thread
document per thread id, holding an ordered list of feedback entries.
Document-store containers are modelled as lists of records in container
order; a read by id is a linear lookup returning the first record with that
id (Cosmos DB guarantees id uniqueness within a container, so first-match
replacement models replace_item and upsert_item).  Fallible operations
return Except: an error value models a raised exception, so no write-back
happens on the error path, exactly as in the source where replace_item is
only reached after the scan succeeded.  Wall-clock timestamps are passed in
as explicit arguments; transient store availability is modelled by boolean
flags injected at the two network-write points of the sync layer.
-/

namespace FaqBot

/-- One element of a conversation record's turn list, as built by
update_conversation in cosmos_db.py (the new_message dict).  The optional
comparison_details mapping is opaque to the sync layer and kept abstract as
an optional string. -/
structure Turn where
  databricks_request_id : String
  message_id : String
  user_message : String
  rephrased_message : String
  check_query : String
  comparison_details : Option String
  ai_answer : String
  context : String
  feedback_vote : Int
  feedback_text : String
  timestamp : String
  deriving DecidableEq, Repr

/-- A Conversation Store document, as created by upload_data in
cosmos_db.py: id, the derived partition value, and the turn list. -/
structure ConversationRecord where
  id : String
  partition_value : String
  conversation : List Turn
  deriving DecidableEq, Repr

/-- The Conversation Store container, in container order. -/
abbrev ConvStore := List ConversationRecord

/-- Errors raised by the store layer: CosmosHttpResponseError on a missing
document read, ValueError on a failed turn scan, Conflict on create_item of
an existing id, and injected transient store failures. -/
inductive CosmosError where
  | notFound (id : String)
  | valueError (msg : String)
  | alreadyExists (id : String)
  | transient
  deriving DecidableEq, Repr

/-- AzureCosmosClass.get_data: read_item by id, returning none (the False
sentinel) when the document is absent. -/
def getData (store : ConvStore) (cid : String) : Option ConversationRecord :=
  store.find? (fun r => decide (r.id = cid))

/-- Cosmos replace_item: replace the (unique) document whose id matches. -/
def replace_item : ConvStore → String → ConversationRecord → ConvStore
  | [], _, _ => []
  | r :: rs, cid, body =>
    if r.id = cid then body :: rs else r :: replace_item rs cid body

/-- AzureCosmosClass.upload_data: create_item of a fresh conversation record
with an empty turn list; create_item raises Conflict when the id exists. -/
def upload_data (store : ConvStore) (chat_id : String) : Except CosmosError ConvStore :=
  if (getData store chat_id).isSome then
    .error (.alreadyExists chat_id)
  else
    .ok (store ++ [{ id := chat_id, partition_value := chat_id ++ "_partkey", conversation := [] }])

/-- A role-tagged message of the chat history returned by get_chat_history. -/
structure ChatMessage where
  role : String
  content : String
  deriving DecidableEq, Repr

/-- The per-turn flattening of AzureCosmosClass.get_chat_history: a user
message when user_message is non-empty (Python dict truthiness), then an
assistant message when ai_answer is non-empty. -/
def renderTurn (t : Turn) : List ChatMessage :=
  (if t.user_message ≠ "" then [{ role := "user", content := t.user_message }] else []) ++
    (if t.ai_answer ≠ "" then [{ role := "assistant", content := t.ai_answer }] else [])

/-- AzureCosmosClass.get_chat_history: when no document exists, create one
via upload_data and return the empty history; otherwise flatten the turn
list in order.  Returns the history together with the resulting store. -/
def get_chat_history (store : ConvStore) (chat_id : String) :
    Except CosmosError (List ChatMessage × ConvStore) :=
  match getData store chat_id with
  | none =>
    match upload_data store chat_id with
    | .error e => .error e
    | .ok store2 => .ok ([], store2)
  | some r => .ok ((r.conversation.map renderTurn).flatten, store)

/-- The new_message dict of update_conversation: the fresh turn with its
feedback fields at their defaults. -/
def buildTurn (databricks_request_id message_id user_message rephrased_message
    check_query : String) (comparison_details : Option String)
    (ai_answer ctx now : String) : Turn :=
  { databricks_request_id := databricks_request_id
    message_id := message_id
    user_message := user_message
    rephrased_message := rephrased_message
    check_query := check_query
    comparison_details := comparison_details
    ai_answer := ai_answer
    context := ctx
    feedback_vote := 0
    feedback_text := ""
    timestamp := now }

/-- AzureCosmosClass.update_conversation: read the document (read_item
raises when absent), append the new_message turn with default feedback
fields, and replace the whole document. -/
def update_conversation (store : ConvStore)
    (databricks_request_id chat_id message_id user_message rephrased_message
      check_query ai_answer ctx : String)
    (comparison_details : Option String) (now : String) :
    Except CosmosError ConvStore :=
  match getData store chat_id with
  | none => .error (.notFound chat_id)
  | some prev_item =>
    let new_message : Turn :=
      buildTurn databricks_request_id message_id user_message rephrased_message
        check_query comparison_details ai_answer ctx now
    .ok (replace_item store chat_id
      { prev_item with conversation := prev_item.conversation ++ [new_message] })

/-- The scan-and-break loop shared by upsert_feedback and reset_feedback in
cosmos_db.py: walk the turn list, overwrite the feedback fields of the
first turn whose message_id matches and stop; none when no turn matches
(message_found stays False). -/
def setFeedbackInConversation : List Turn → String → Int → String → Option (List Turn)
  | [], _, _, _ => none
  | t :: ts, mid, vote, text =>
    if t.message_id = mid then
      some ({ t with feedback_vote := vote, feedback_text := text } :: ts)
    else
      (setFeedbackInConversation ts mid vote text).map (fun l => t :: l)

/-- AzureCosmosClass.upsert_feedback: read the document, scan for the turn,
raise ValueError when no turn matches (before any write-back), otherwise
replace the whole document with the updated turn list. -/
def upsert_feedback (store : ConvStore) (chat_id message_id : String)
    (feedback_vote : Int) (feedback_text : String) : Except CosmosError ConvStore :=
  match getData store chat_id with
  | none => .error (.notFound chat_id)
  | some item =>
    match setFeedbackInConversation item.conversation message_id feedback_vote feedback_text with
    | none => .error (.valueError ("Message ID " ++ message_id ++ " not found in conversation"))
    | some conv => .ok (replace_item store chat_id { item with conversation := conv })

/-- AzureCosmosClass.reset_feedback: identical loop with vote 0 and empty
text. -/
def reset_feedback (store : ConvStore) (chat_id message_id : String) :
    Except CosmosError ConvStore :=
  match getData store chat_id with
  | none => .error (.notFound chat_id)
  | some item =>
    match setFeedbackInConversation item.conversation message_id 0 "" with
    | none => .error (.valueError ("Message ID " ++ message_id ++ " not found in conversation"))
    | some conv => .ok (replace_item store chat_id { item with conversation := conv })

/-- A feedback entry of a thread document (the feedback_data dict of
CustomDataLayer.store_feedback); comment may be Python None. -/
structure FeedbackEntry where
  message_id : String
  user_message : String
  value : Int
  comment : Option String
  timestamp : String
  deriving DecidableEq, Repr

/-- A Thread/Step Store thread document: id plus the ordered feedback
list. -/
structure Thread where
  id : String
  feedback : List FeedbackEntry
  deriving DecidableEq, Repr

/-- The threads container, in container order. -/
abbrev ThreadStore := List Thread

/-- The message dict produced by CustomDataLayer.find_user_message. -/
structure UserMessage where
  input : String
  thread_id : String
  id : String
  deriving DecidableEq, Repr

/-- The fields of a step record read by the sync layer; Python dict .get
with default makes every field a string, absent keys reading as empty. -/
structure Step where
  name : String
  input : String
  threadId : String
  id : String
  parentId : String
  deriving DecidableEq, Repr

/-- CustomDataLayer.find_user_message: dispatch on the step name
(on_audio_end takes the step's own id, on_message the parent id, anything
else raises ValueError), then validate that thread_id and id are both
non-empty strings, raising ValueError otherwise. -/
def find_user_message (step : Step) : Except CosmosError UserMessage :=
  let message0 : Except CosmosError UserMessage :=
    if step.name = "on_audio_end" then
      .ok { input := step.input, thread_id := step.threadId, id := step.id }
    else if step.name = "on_message" then
      .ok { input := step.input, thread_id := step.threadId, id := step.parentId }
    else
      .error (.valueError ("Unknown step type: " ++ step.name))
  match message0 with
  | .error e => .error e
  | .ok message =>
    if message.thread_id = "" ∨ message.id = "" then
      .error (.valueError "Missing required message fields")
    else
      .ok message

/-- Python `comment if comment else ""`: the empty string replaces both
None and the (already empty) falsy string. -/
def pyOptStr : Option String → String
  | none => ""
  | some s => s

/-- Cosmos upsert_item on the threads container: replace the (unique)
thread with the same id, or insert the new thread. -/
def upsertThread : ThreadStore → Thread → ThreadStore
  | [], t => [t]
  | u :: us, t => if u.id = t.id then t :: us else u :: upsertThread us t

/-- The combined state of the two stores that the sync layer mediates. -/
structure SyncState where
  threads : ThreadStore
  convs : ConvStore
  deriving DecidableEq, Repr

/-- The feedback_data dict built at the top of store_feedback. -/
def mkFeedbackEntry (message : UserMessage) (value : Int) (comment : Option String)
    (now : String) : FeedbackEntry :=
  { message_id := message.id
    user_message := message.input
    value := value
    comment := comment
    timestamp := now }

/-- The thread read of store_feedback: read_item, falling back to a fresh
thread with an empty feedback list on CosmosResourceNotFoundError. -/
def readThreadOrNew (ts : ThreadStore) (thread_id : String) : Thread :=
  match ts.find? (fun u => decide (u.id = thread_id)) with
  | some t => t
  | none => { id := thread_id, feedback := [] }

/-- Reading the thread (or creating it) and appending the new feedback
entry, as store_feedback does before the upsert. -/
def appendFeedbackThread (ts : ThreadStore) (thread_id : String) (entry : FeedbackEntry) :
    Thread :=
  { readThreadOrNew ts thread_id with
    feedback := (readThreadOrNew ts thread_id).feedback ++ [entry] }

/-- CustomDataLayer.store_feedback: build the feedback_data entry, read the
thread (creating an empty one when absent), append the entry and upsert the
thread document; then mirror the vote into the Conversation Store with the
0-to-minus-one vote translation, swallowing any failure of that second
write.  threadWriteOk and convWriteOk inject transient store failures at
the two network-write points; a failed thread write raises (the outer
except re-raises), a failed conversation write is logged only. -/
def store_feedback (threadWriteOk convWriteOk : Bool) (st : SyncState)
    (message : UserMessage) (value : Int) (comment : Option String) (now : String) :
    Except CosmosError SyncState :=
  let feedback_data := mkFeedbackEntry message value comment now
  let thread2 := appendFeedbackThread st.threads message.thread_id feedback_data
  if threadWriteOk = false then
    .error .transient
  else
    let threads2 := upsertThread st.threads thread2
    if convWriteOk = false then
      .ok { threads := threads2, convs := st.convs }
    else
      match upsert_feedback st.convs message.thread_id message.id
          (if value = 0 then -1 else value) (pyOptStr comment) with
      | .error _ => .ok { threads := threads2, convs := st.convs }
      | .ok convs2 => .ok { threads := threads2, convs := convs2 }

/-- The ARRAY_CONTAINS predicate of the delete_feedback query: the thread's
feedback list contains an entry with the given message_id. -/
def threadHasFeedbackFor (feedback_id : String) (t : Thread) : Bool :=
  t.feedback.any (fun fb => decide (fb.message_id = feedback_id))

/-- The list comprehension of delete_feedback, dropping every feedback
entry whose message_id equals the retracted id. -/
def removeFeedbackFromThread (thread : Thread) (feedback_id : String) : Thread :=
  { thread with
    feedback := thread.feedback.filter (fun fb => decide (fb.message_id ≠ feedback_id)) }

/-- The best-effort reset call of delete_feedback: any failure of
reset_feedback is swallowed and the Conversation Store left as it was;
convResetOk injects a transient failure of that call. -/
def resetConvsBestEffort (convResetOk : Bool) (convs : ConvStore)
    (chat_id feedback_id : String) : ConvStore :=
  if convResetOk = false then convs
  else
    match reset_feedback convs chat_id feedback_id with
    | .error _ => convs
    | .ok c => c

/-- CustomDataLayer.delete_feedback: query the threads container for the
first thread containing a feedback entry with the given message id; when
none matches return false without touching either store; otherwise drop
every matching entry from the feedback list, upsert the thread, and
best-effort reset the matching turn in the Conversation Store; return
true. -/
def delete_feedback (convResetOk : Bool) (st : SyncState) (feedback_id : String) :
    Except CosmosError (Bool × SyncState) :=
  match st.threads.find? (threadHasFeedbackFor feedback_id) with
  | none => .ok (false, st)
  | some thread =>
    let thread2 := removeFeedbackFromThread thread feedback_id
    let threads2 := upsertThread st.threads thread2
    let convs2 := resetConvsBestEffort convResetOk st.convs thread.id feedback_id
    .ok (true, { threads := threads2, convs := convs2 })

/-- The submit-then-retract round trip of the sync layer, both store writes
available: upsert_feedback of the data layer ends in store_feedback, and
delete_feedback retracts by the same message id. -/
def submitThenRetract (st : SyncState) (message : UserMessage) (value : Int)
    (comment : Option String) (now : String) : Except CosmosError (Bool × SyncState) :=
  match store_feedback true true st message value comment now with
  | .error e => .error e
  | .ok st1 => delete_feedback true st1 message.id

/-- The record-turn inputs of one orchestrator call (the arguments of
update_conversation apart from the store and the chat id). -/
structure TurnInput where
  databricks_request_id : String
  message_id : String
  user_message : String
  rephrased_message : String
  check_query : String
  ai_answer : String
  context : String
  comparison_details : Option String
  now : String
  deriving DecidableEq, Repr

/-- The turn that update_conversation appends for one input. -/
def mkTurn (i : TurnInput) : Turn :=
  buildTurn i.databricks_request_id i.message_id i.user_message i.rephrased_message
    i.check_query i.comparison_details i.ai_answer i.context i.now

/-- A sequence of update_conversation calls against one conversation id,
aborting at the first failure. -/
def recordTurns (chat_id : String) : ConvStore → List TurnInput → Except CosmosError ConvStore
  | store, [] => .ok store
  | store, i :: is =>
    match update_conversation store i.databricks_request_id chat_id i.message_id
        i.user_message i.rephrased_message i.check_query i.ai_answer i.context
        i.comparison_details i.now with
    | .error e => .error e
    | .ok store2 => recordTurns chat_id store2 is

/-! ## Decomposition lemmas for the store primitives -/

theorem getData_decomp (cpre : ConvStore) (r : ConversationRecord) (cpost : ConvStore)
    (cid : String) (hpre : ∀ x ∈ cpre, x.id ≠ cid) (hr : r.id = cid) :
    getData (cpre ++ r :: cpost) cid = some r := by
  unfold getData
  induction cpre with
  | nil => simp [List.find?_cons, hr]
  | cons a as ih =>
    have ha : a.id ≠ cid := hpre a (by simp)
    have hd : decide (a.id = cid) = false := by simp [ha]
    simp only [List.cons_append, List.find?_cons, hd]
    exact ih (fun x hx => hpre x (by simp [hx]))

theorem replace_item_decomp (cpre : ConvStore) (r : ConversationRecord) (cpost : ConvStore)
    (cid : String) (body : ConversationRecord)
    (hpre : ∀ x ∈ cpre, x.id ≠ cid) (hr : r.id = cid) :
    replace_item (cpre ++ r :: cpost) cid body = cpre ++ body :: cpost := by
  induction cpre with
  | nil => simp [replace_item, hr]
  | cons a as ih =>
    have ha : a.id ≠ cid := hpre a (by simp)
    have ih2 := ih (fun x hx => hpre x (by simp [hx]))
    simp only [List.cons_append, replace_item, if_neg ha]
    rw [show (List.append as (r :: cpost)) = as ++ r :: cpost from rfl, ih2]

theorem setFeedbackInConversation_decomp (pre : List Turn) (t : Turn) (post : List Turn)
    (mid : String) (vote : Int) (text : String)
    (hpre : ∀ u ∈ pre, u.message_id ≠ mid) (ht : t.message_id = mid) :
    setFeedbackInConversation (pre ++ t :: post) mid vote text =
      some (pre ++ { t with feedback_vote := vote, feedback_text := text } :: post) := by
  induction pre with
  | nil => simp [setFeedbackInConversation, ht]
  | cons a as ih =>
    have ha : a.message_id ≠ mid := hpre a (by simp)
    have ih2 := ih (fun x hx => hpre x (by simp [hx]))
    simp only [List.cons_append, setFeedbackInConversation, if_neg ha]
    rw [show (List.append as (t :: post)) = as ++ t :: post from rfl, ih2]
    rfl

theorem setFeedbackInConversation_none (l : List Turn) (mid : String) (vote : Int)
    (text : String) (h : ∀ u ∈ l, u.message_id ≠ mid) :
    setFeedbackInConversation l mid vote text = none := by
  induction l with
  | nil => rfl
  | cons a as ih =>
    have ha : a.message_id ≠ mid := h a (by simp)
    have ih2 := ih (fun x hx => h x (by simp [hx]))
    simp only [setFeedbackInConversation, if_neg ha]
    rw [ih2]
    rfl

/-- upsert_feedback on a well-formed store with a matching turn: the first
matching turn's feedback fields are overwritten, everything else kept. -/
theorem upsert_feedback_decomp (cpre : ConvStore) (r : ConversationRecord) (cpost : ConvStore)
    (cid mid : String) (vote : Int) (text : String)
    (pre : List Turn) (t : Turn) (post : List Turn)
    (hpre : ∀ x ∈ cpre, x.id ≠ cid) (hr : r.id = cid)
    (hconv : r.conversation = pre ++ t :: post)
    (hpre2 : ∀ u ∈ pre, u.message_id ≠ mid) (ht : t.message_id = mid) :
    upsert_feedback (cpre ++ r :: cpost) cid mid vote text =
      .ok (cpre ++
        { r with conversation :=
            pre ++ { t with feedback_vote := vote, feedback_text := text } :: post } :: cpost) := by
  have hrep : ∀ body, replace_item (cpre ++ r :: cpost) cid body = cpre ++ body :: cpost :=
    fun body => replace_item_decomp cpre r cpost cid body hpre hr
  unfold upsert_feedback
  rw [getData_decomp cpre r cpost cid hpre hr]
  dsimp only
  rw [hconv, setFeedbackInConversation_decomp pre t post mid vote text hpre2 ht]
  dsimp only
  rw [hrep]

/-- reset_feedback on a well-formed store with a matching turn. -/
theorem reset_feedback_decomp (cpre : ConvStore) (r : ConversationRecord) (cpost : ConvStore)
    (cid mid : String) (pre : List Turn) (t : Turn) (post : List Turn)
    (hpre : ∀ x ∈ cpre, x.id ≠ cid) (hr : r.id = cid)
    (hconv : r.conversation = pre ++ t :: post)
    (hpre2 : ∀ u ∈ pre, u.message_id ≠ mid) (ht : t.message_id = mid) :
    reset_feedback (cpre ++ r :: cpost) cid mid =
      .ok (cpre ++
        { r with conversation :=
            pre ++ { t with feedback_vote := 0, feedback_text := "" } :: post } :: cpost) := by
  have hrep : ∀ body, replace_item (cpre ++ r :: cpost) cid body = cpre ++ body :: cpost :=
    fun body => replace_item_decomp cpre r cpost cid body hpre hr
  unfold reset_feedback
  rw [getData_decomp cpre r cpost cid hpre hr]
  dsimp only
  rw [hconv, setFeedbackInConversation_decomp pre t post mid 0 "" hpre2 ht]
  dsimp only
  rw [hrep]

/-! ## Lemmas about thread upsert and lookup -/

theorem mem_upsertThread_self (ts : ThreadStore) (t : Thread) : t ∈ upsertThread ts t := by
  induction ts with
  | nil => simp [upsertThread]
  | cons u us ih =>
    by_cases h : u.id = t.id
    · simp [upsertThread, h]
    · simp only [upsertThread, if_neg h, List.mem_cons]
      exact Or.inr ih

theorem mem_upsertThread (ts : ThreadStore) (t u : Thread) (h : u ∈ upsertThread ts t) :
    u = t ∨ u ∈ ts := by
  induction ts with
  | nil => simpa [upsertThread] using h
  | cons v vs ih =>
    by_cases hv : v.id = t.id
    · simp only [upsertThread, if_pos hv, List.mem_cons] at h
      rcases h with h | h
      · exact Or.inl h
      · exact Or.inr (by simp [h])
    · simp only [upsertThread, if_neg hv, List.mem_cons] at h
      rcases h with h | h
      · exact Or.inr (by simp [h])
      · rcases ih h with h2 | h2
        · exact Or.inl h2
        · exact Or.inr (by simp [h2])

theorem find?_upsertThread (ts : ThreadStore) (t : Thread) (m : String)
    (hts : ∀ u ∈ ts, threadHasFeedbackFor m u = false)
    (ht : threadHasFeedbackFor m t = true) :
    (upsertThread ts t).find? (threadHasFeedbackFor m) = some t := by
  induction ts with
  | nil => simp [upsertThread, List.find?_cons, ht]
  | cons u us ih =>
    by_cases h : u.id = t.id
    · simp [upsertThread, h, List.find?_cons, ht]
    · have hu : threadHasFeedbackFor m u = false := hts u (by simp)
      simp only [upsertThread, if_neg h, List.find?_cons, hu]
      exact ih (fun x hx => hts x (by simp [hx]))

theorem upsertThread_upsertThread (ts : ThreadStore) (t t2 : Thread) (h : t.id = t2.id) :
    upsertThread (upsertThread ts t) t2 = upsertThread ts t2 := by
  induction ts with
  | nil => simp [upsertThread, h]
  | cons u us ih =>
    by_cases hu : u.id = t.id
    · have hu2 : u.id = t2.id := hu.trans h
      simp [upsertThread, hu, hu2, h]
    · have hu2 : ¬ u.id = t2.id := fun hx => hu (hx.trans h.symm)
      simp only [upsertThread, if_neg hu, if_neg hu2]
      rw [ih]

theorem readThreadOrNew_id (ts : ThreadStore) (tid : String) :
    (readThreadOrNew ts tid).id = tid := by
  unfold readThreadOrNew
  cases heq : ts.find? (fun u => decide (u.id = tid)) with
  | none => rfl
  | some t =>
    have := List.find?_some heq
    simpa using this

theorem threadHasFeedbackFor_false (m : String) (u : Thread)
    (h : ∀ fb ∈ u.feedback, fb.message_id ≠ m) : threadHasFeedbackFor m u = false := by
  unfold threadHasFeedbackFor
  simp only [List.any_eq_false, decide_eq_true_eq]
  exact h

theorem appendFeedbackThread_hasFeedback (ts : ThreadStore) (tid : String)
    (entry : FeedbackEntry) :
    threadHasFeedbackFor entry.message_id (appendFeedbackThread ts tid entry) = true := by
  unfold threadHasFeedbackFor appendFeedbackThread
  simp

/-- store_feedback with both stores available, on a well-formed state with
a matching turn: the thread entry is appended and upserted, and the
matching turn receives the translated vote and the comment text. -/
theorem store_feedback_true_true_eq (st : SyncState) (message : UserMessage)
    (value : Int) (comment : Option String) (now : String)
    (cpre : ConvStore) (r : ConversationRecord) (cpost : ConvStore)
    (pre : List Turn) (t : Turn) (post : List Turn)
    (hstore : st.convs = cpre ++ r :: cpost)
    (hpre : ∀ x ∈ cpre, x.id ≠ message.thread_id)
    (hr : r.id = message.thread_id)
    (hconv : r.conversation = pre ++ t :: post)
    (hpre2 : ∀ u ∈ pre, u.message_id ≠ message.id)
    (ht : t.message_id = message.id) :
    store_feedback true true st message value comment now =
      .ok { threads := upsertThread st.threads
              (appendFeedbackThread st.threads message.thread_id
                (mkFeedbackEntry message value comment now))
            convs := cpre ++
              { r with conversation := pre ++
                  { t with feedback_vote := if value = 0 then -1 else value,
                           feedback_text := pyOptStr comment } :: post } :: cpost } := by
  unfold store_feedback
  dsimp only
  rw [if_neg (by simp : ¬ (true = false))]
  rw [if_neg (by simp : ¬ (true = false))]
  rw [hstore, upsert_feedback_decomp cpre r cpost message.thread_id message.id
    (if value = 0 then -1 else value) (pyOptStr comment) pre t post hpre hr hconv hpre2 ht]

/-- A sequence of update_conversation calls on a well-formed store appends
the built turns in call order to the targeted record and leaves every
other record in place. -/
theorem recordTurns_decomp (cid : String) (inputs : List TurnInput)
    (cpre : ConvStore) (r : ConversationRecord) (cpost : ConvStore)
    (hpre : ∀ x ∈ cpre, x.id ≠ cid) (hr : r.id = cid) :
    recordTurns cid (cpre ++ r :: cpost) inputs =
      .ok (cpre ++ { r with conversation := r.conversation ++ inputs.map mkTurn } :: cpost) := by
  induction inputs generalizing r with
  | nil => simp [recordTurns]
  | cons i is ih =>
    unfold recordTurns update_conversation
    rw [getData_decomp cpre r cpost cid hpre hr]
    dsimp only
    rw [replace_item_decomp cpre r cpost cid _ hpre hr]
    have hmk : buildTurn i.databricks_request_id i.message_id i.user_message
        i.rephrased_message i.check_query i.comparison_details i.ai_answer i.context i.now =
        mkTurn i := rfl
    rw [hmk]
    rw [ih { r with conversation := r.conversation ++ [mkTurn i] } hr]
    simp [List.append_assoc]

/-- delete_feedback when the threads query finds a match: the filtered
thread is upserted and the best-effort reset applied. -/
theorem delete_feedback_found_eq (st : SyncState) (fid : String) (thread0 : Thread)
    (heq : st.threads.find? (threadHasFeedbackFor fid) = some thread0) :
    delete_feedback true st fid =
      .ok (true, { threads := upsertThread st.threads (removeFeedbackFromThread thread0 fid),
                   convs := resetConvsBestEffort true st.convs thread0.id fid }) := by
  unfold delete_feedback
  rw [heq]

/-! ## Claim theorems -/

/-- C1: for every feedback submission, a UI vote value of 0 is written into
the matching Turn of the Conversation Store as -1, and every other vote
value is written exactly as submitted.  The hypotheses say the state is
well formed: the conversation record for the thread exists and holds a
turn with the submitted message id. -/
theorem C1_vote_zero_encoded_minus_one (st : SyncState) (message : UserMessage)
    (value : Int) (comment : Option String) (now : String)
    (cpre : ConvStore) (r : ConversationRecord) (cpost : ConvStore)
    (pre : List Turn) (t : Turn) (post : List Turn)
    (hstore : st.convs = cpre ++ r :: cpost)
    (hpre : ∀ x ∈ cpre, x.id ≠ message.thread_id)
    (hr : r.id = message.thread_id)
    (hconv : r.conversation = pre ++ t :: post)
    (hpre2 : ∀ u ∈ pre, u.message_id ≠ message.id)
    (ht : t.message_id = message.id) :
    store_feedback true true st message value comment now =
      .ok { threads := upsertThread st.threads
              (appendFeedbackThread st.threads message.thread_id
                (mkFeedbackEntry message value comment now))
            convs := cpre ++
              { r with conversation := pre ++
                  { t with feedback_vote := if value = 0 then -1 else value,
                           feedback_text := pyOptStr comment } :: post } :: cpost } :=
  store_feedback_true_true_eq st message value comment now cpre r cpost pre t post
    hstore hpre hr hconv hpre2 ht

/-- C1 witness: vote 0 is stored as -1 while vote 1 passes through
unchanged, on a one-record, one-turn state. -/
theorem C1_witness :
    store_feedback true true
        ⟨[], [⟨"c1", "c1_partkey",
          [⟨"r1", "m1", "hello", "hr", "cq", none, "hi", "ctx", 0, "", "ts"⟩]⟩]⟩
        ⟨"hello", "c1", "m1"⟩ 0 (some "bad") "ts2" =
      .ok ⟨[⟨"c1", [⟨"m1", "hello", 0, some "bad", "ts2"⟩]⟩],
           [⟨"c1", "c1_partkey",
             [⟨"r1", "m1", "hello", "hr", "cq", none, "hi", "ctx", -1, "bad", "ts"⟩]⟩]⟩ ∧
    store_feedback true true
        ⟨[], [⟨"c1", "c1_partkey",
          [⟨"r1", "m1", "hello", "hr", "cq", none, "hi", "ctx", 0, "", "ts"⟩]⟩]⟩
        ⟨"hello", "c1", "m1"⟩ 1 (some "good") "ts2" =
      .ok ⟨[⟨"c1", [⟨"m1", "hello", 1, some "good", "ts2"⟩]⟩],
           [⟨"c1", "c1_partkey",
             [⟨"r1", "m1", "hello", "hr", "cq", none, "hi", "ctx", 1, "good", "ts"⟩]⟩]⟩ :=
  ⟨C1_vote_zero_encoded_minus_one
     ⟨[], [⟨"c1", "c1_partkey", [⟨"r1", "m1", "hello", "hr", "cq", none, "hi", "ctx", 0, "", "ts"⟩]⟩]⟩
     ⟨"hello", "c1", "m1"⟩ 0 (some "bad") "ts2"
     [] ⟨"c1", "c1_partkey", [⟨"r1", "m1", "hello", "hr", "cq", none, "hi", "ctx", 0, "", "ts"⟩]⟩ []
     [] ⟨"r1", "m1", "hello", "hr", "cq", none, "hi", "ctx", 0, "", "ts"⟩ []
     rfl (by simp) rfl rfl (by simp) rfl,
   C1_vote_zero_encoded_minus_one
     ⟨[], [⟨"c1", "c1_partkey", [⟨"r1", "m1", "hello", "hr", "cq", none, "hi", "ctx", 0, "", "ts"⟩]⟩]⟩
     ⟨"hello", "c1", "m1"⟩ 1 (some "good") "ts2"
     [] ⟨"c1", "c1_partkey", [⟨"r1", "m1", "hello", "hr", "cq", none, "hi", "ctx", 0, "", "ts"⟩]⟩ []
     [] ⟨"r1", "m1", "hello", "hr", "cq", none, "hi", "ctx", 0, "", "ts"⟩ []
     rfl (by simp) rfl rfl (by simp) rfl⟩

/-- C2: when the Thread/Step Store write succeeds and the Conversation
Store write fails, store_feedback still reports success, the thread store
holds the appended feedback entry, and the Conversation Store is
unchanged; when the Thread/Step Store write fails, the whole operation
fails. -/
theorem C2_secondary_failure_swallowed (b : Bool) (st : SyncState) (message : UserMessage)
    (value : Int) (comment : Option String) (now : String) :
    (store_feedback true false st message value comment now =
        .ok { threads := upsertThread st.threads
                (appendFeedbackThread st.threads message.thread_id
                  (mkFeedbackEntry message value comment now))
              convs := st.convs } ∧
      mkFeedbackEntry message value comment now ∈
        (appendFeedbackThread st.threads message.thread_id
          (mkFeedbackEntry message value comment now)).feedback ∧
      appendFeedbackThread st.threads message.thread_id
          (mkFeedbackEntry message value comment now) ∈
        upsertThread st.threads
          (appendFeedbackThread st.threads message.thread_id
            (mkFeedbackEntry message value comment now))) ∧
    store_feedback false b st message value comment now = .error .transient := by
  refine ⟨⟨?_, ?_, mem_upsertThread_self _ _⟩, ?_⟩
  · unfold store_feedback
    simp
  · unfold appendFeedbackThread
    simp
  · unfold store_feedback
    simp

/-- C5 counterexample: a step whose name is the voice kind
("on_audio_end") but whose thread id is empty makes find_user_message fail
with the missing-fields ValueError instead of yielding the step's own id,
so the claim does not hold for every step record. -/
theorem C5_counterexample :
    ({ name := "on_audio_end", input := "hi", threadId := "", id := "s1", parentId := "" } : Step).name =
      "on_audio_end" ∧
    find_user_message { name := "on_audio_end", input := "hi", threadId := "", id := "s1", parentId := "" } =
      .error (.valueError "Missing required message fields") :=
  ⟨rfl, rfl⟩

/-- C5 (amended): when the name is "on_audio_end" and the step's thread id
and own id are non-empty, resolution yields the step's own identifier;
when the name is "on_message" and the thread id and parent id are
non-empty, it yields the parent identifier; any other step name fails with
an input error; and for the two recognized names resolution also fails
with an input error when the thread id or the resolved identifier is
empty. -/
theorem C5_step_resolution (step : Step) :
    (step.name = "on_audio_end" → step.threadId ≠ "" → step.id ≠ "" →
      find_user_message step =
        .ok { input := step.input, thread_id := step.threadId, id := step.id }) ∧
    (step.name = "on_message" → step.threadId ≠ "" → step.parentId ≠ "" →
      find_user_message step =
        .ok { input := step.input, thread_id := step.threadId, id := step.parentId }) ∧
    (step.name ≠ "on_audio_end" → step.name ≠ "on_message" →
      find_user_message step = .error (.valueError ("Unknown step type: " ++ step.name))) ∧
    (step.name = "on_audio_end" → (step.threadId = "" ∨ step.id = "") →
      find_user_message step = .error (.valueError "Missing required message fields")) ∧
    (step.name = "on_message" → (step.threadId = "" ∨ step.parentId = "") →
      find_user_message step = .error (.valueError "Missing required message fields")) := by
  refine ⟨?_, ?_, ?_, ?_, ?_⟩
  · intro h h1 h2
    simp [find_user_message, h, h1, h2]
  · intro h h1 h2
    have hne : step.name = "on_message" := h
    by_cases ha : step.name = "on_audio_end"
    · rw [ha] at h
      exact absurd h (by decide)
    · simp [find_user_message, ha, hne, h1, h2]
  · intro h1 h2
    simp [find_user_message, h1, h2]
  · intro h h1
    simp [find_user_message, h]
    rcases h1 with h1 | h1 <;> simp [h1]
  · intro h h1
    by_cases ha : step.name = "on_audio_end"
    · rw [ha] at h
      exact absurd h (by decide)
    · simp [find_user_message, ha, h]
      rcases h1 with h1 | h1 <;> simp [h1]

/-- C5 witness: concrete resolutions of a voice step, a text step, an
unknown step name, and a voice step with an empty thread id. -/
theorem C5_witness :
    find_user_message ⟨"on_audio_end", "q", "t1", "s1", "p1"⟩ = .ok ⟨"q", "t1", "s1"⟩ ∧
    find_user_message ⟨"on_message", "q", "t1", "s1", "p1"⟩ = .ok ⟨"q", "t1", "p1"⟩ ∧
    find_user_message ⟨"on_chat_start", "q", "t1", "s1", "p1"⟩ =
      .error (.valueError ("Unknown step type: " ++ "on_chat_start")) ∧
    find_user_message ⟨"on_audio_end", "q", "", "s1", "p1"⟩ =
      .error (.valueError "Missing required message fields") ∧
    find_user_message ⟨"on_message", "q", "t1", "s1", ""⟩ =
      .error (.valueError "Missing required message fields") :=
  ⟨(C5_step_resolution _).1 rfl (by decide) (by decide),
   (C5_step_resolution _).2.1 rfl (by decide) (by decide),
   (C5_step_resolution _).2.2.1 (by decide) (by decide),
   (C5_step_resolution _).2.2.2.1 rfl (Or.inl rfl),
   (C5_step_resolution _).2.2.2.2 rfl (Or.inr rfl)⟩

/-- C7: get_chat_history on an absent conversation id returns the empty
history and leaves behind a record with an empty turn list; a second call
on the same id again returns the empty history and leaves the store
exactly as it was. -/
theorem C7_get_history_creates_once (store : ConvStore) (cid : String)
    (h : getData store cid = none) :
    get_chat_history store cid =
      .ok ([], store ++ [{ id := cid, partition_value := cid ++ "_partkey", conversation := [] }]) ∧
    get_chat_history
        (store ++ [{ id := cid, partition_value := cid ++ "_partkey", conversation := [] }]) cid =
      .ok ([], store ++ [{ id := cid, partition_value := cid ++ "_partkey", conversation := [] }]) := by
  constructor
  · simp [get_chat_history, upload_data, h]
  · have h2 : getData
        (store ++ [{ id := cid, partition_value := cid ++ "_partkey", conversation := [] }]) cid =
        some { id := cid, partition_value := cid ++ "_partkey", conversation := [] } := by
      unfold getData at h ⊢
      rw [List.find?_append, h]
      simp
    unfold get_chat_history
    rw [h2]
    rfl

/-- C7 witness: both calls on the empty store and id c1. -/
theorem C7_witness :
    get_chat_history [] "c1" =
      .ok ([], [] ++ [{ id := "c1", partition_value := "c1" ++ "_partkey", conversation := [] }]) ∧
    get_chat_history
        ([] ++ [{ id := "c1", partition_value := "c1" ++ "_partkey", conversation := [] }]) "c1" =
      .ok ([], [] ++ [{ id := "c1", partition_value := "c1" ++ "_partkey", conversation := [] }]) :=
  C7_get_history_creates_once [] "c1" rfl

/-- C4: retract_feedback on a message id no thread has feedback for
returns false and leaves both stores untouched, raising nothing; when the
threads query finds a match, it removes the matching entries and returns
true. -/
theorem C4_retract_not_found (cOk : Bool) (st : SyncState) (fid : String) :
    ((∀ u ∈ st.threads, ∀ fb ∈ u.feedback, fb.message_id ≠ fid) →
      delete_feedback cOk st fid = .ok (false, st)) ∧
    (∀ thread0, st.threads.find? (threadHasFeedbackFor fid) = some thread0 →
      delete_feedback cOk st fid =
        .ok (true, { threads := upsertThread st.threads (removeFeedbackFromThread thread0 fid),
                     convs := resetConvsBestEffort cOk st.convs thread0.id fid }) ∧
      ∀ fb ∈ (removeFeedbackFromThread thread0 fid).feedback, fb.message_id ≠ fid) := by
  constructor
  · intro h
    have hn : st.threads.find? (threadHasFeedbackFor fid) = none := by
      rw [List.find?_eq_none]
      intro u hu
      simp [threadHasFeedbackFor_false fid u (h u hu)]
    unfold delete_feedback
    rw [hn]
  · intro thread0 heq
    constructor
    · unfold delete_feedback
      rw [heq]
    · intro fb hfb
      simp only [removeFeedbackFromThread, List.mem_filter, decide_eq_true_eq] at hfb
      exact hfb.2

/-- C4 witness: an absent id returns false with the state unchanged; a
present id returns true with the entry removed. -/
theorem C4_witness :
    delete_feedback true ⟨[⟨"t1", [⟨"m1", "hello", 1, some "good", "ts"⟩]⟩], []⟩ "zz" =
      .ok (false, ⟨[⟨"t1", [⟨"m1", "hello", 1, some "good", "ts"⟩]⟩], []⟩) ∧
    delete_feedback true ⟨[⟨"t1", [⟨"m1", "hello", 1, some "good", "ts"⟩]⟩], []⟩ "m1" =
      .ok (true, ⟨[⟨"t1", []⟩], []⟩) :=
  ⟨(C4_retract_not_found true _ "zz").1 (by decide),
   ((C4_retract_not_found true _ "m1").2 ⟨"t1", [⟨"m1", "hello", 1, some "good", "ts"⟩]⟩
     (by decide)).1⟩

/-- C6: upsert_feedback and reset_feedback raise the not-found ValueError
when no turn in the record carries the message id, in which case no
write-back is issued (the error return happens before replace_item);
when a matching turn exists, the first match of the linear scan is
updated. -/
theorem C6_feedback_scan_not_found (store : ConvStore) (cid mid : String)
    (vote : Int) (text : String)
    (cpre : ConvStore) (r : ConversationRecord) (cpost : ConvStore)
    (hstore : store = cpre ++ r :: cpost)
    (hpre : ∀ x ∈ cpre, x.id ≠ cid) (hr : r.id = cid) :
    ((∀ u ∈ r.conversation, u.message_id ≠ mid) →
      upsert_feedback store cid mid vote text =
        .error (.valueError ("Message ID " ++ mid ++ " not found in conversation")) ∧
      reset_feedback store cid mid =
        .error (.valueError ("Message ID " ++ mid ++ " not found in conversation"))) ∧
    (∀ pre t post, r.conversation = pre ++ t :: post →
      (∀ u ∈ pre, u.message_id ≠ mid) → t.message_id = mid →
      upsert_feedback store cid mid vote text =
        .ok (cpre ++ { r with conversation :=
          pre ++ { t with feedback_vote := vote, feedback_text := text } :: post } :: cpost) ∧
      reset_feedback store cid mid =
        .ok (cpre ++ { r with conversation :=
          pre ++ { t with feedback_vote := 0, feedback_text := "" } :: post } :: cpost)) := by
  subst hstore
  constructor
  · intro h
    constructor
    · unfold upsert_feedback
      rw [getData_decomp cpre r cpost cid hpre hr]
      dsimp only
      rw [setFeedbackInConversation_none r.conversation mid vote text h]
    · unfold reset_feedback
      rw [getData_decomp cpre r cpost cid hpre hr]
      dsimp only
      rw [setFeedbackInConversation_none r.conversation mid 0 "" h]
  · intro pre t post hconv hpre2 ht
    exact ⟨upsert_feedback_decomp cpre r cpost cid mid vote text pre t post hpre hr hconv hpre2 ht,
           reset_feedback_decomp cpre r cpost cid mid pre t post hpre hr hconv hpre2 ht⟩

/-- C6 witness: both operations fail on an absent message id and leave the
record alone; both succeed on the present one. -/
theorem C6_witness :
    (upsert_feedback
        [⟨"c1", "c1_partkey", [⟨"r1", "m1", "hello", "hr", "cq", none, "hi", "ctx", 0, "", "ts"⟩]⟩]
        "c1" "zz" 1 "x" =
        .error (.valueError ("Message ID " ++ "zz" ++ " not found in conversation")) ∧
      reset_feedback
        [⟨"c1", "c1_partkey", [⟨"r1", "m1", "hello", "hr", "cq", none, "hi", "ctx", 0, "", "ts"⟩]⟩]
        "c1" "zz" =
        .error (.valueError ("Message ID " ++ "zz" ++ " not found in conversation"))) ∧
    (upsert_feedback
        [⟨"c1", "c1_partkey", [⟨"r1", "m1", "hello", "hr", "cq", none, "hi", "ctx", 0, "", "ts"⟩]⟩]
        "c1" "m1" 1 "x" =
        .ok [⟨"c1", "c1_partkey", [⟨"r1", "m1", "hello", "hr", "cq", none, "hi", "ctx", 1, "x", "ts"⟩]⟩] ∧
      reset_feedback
        [⟨"c1", "c1_partkey", [⟨"r1", "m1", "hello", "hr", "cq", none, "hi", "ctx", 0, "", "ts"⟩]⟩]
        "c1" "m1" =
        .ok [⟨"c1", "c1_partkey", [⟨"r1", "m1", "hello", "hr", "cq", none, "hi", "ctx", 0, "", "ts"⟩]⟩]) :=
  ⟨(C6_feedback_scan_not_found _ "c1" "zz" 1 "x" []
      ⟨"c1", "c1_partkey", [⟨"r1", "m1", "hello", "hr", "cq", none, "hi", "ctx", 0, "", "ts"⟩]⟩ []
      rfl (by simp) rfl).1 (by decide),
   (C6_feedback_scan_not_found _ "c1" "m1" 1 "x" []
      ⟨"c1", "c1_partkey", [⟨"r1", "m1", "hello", "hr", "cq", none, "hi", "ctx", 0, "", "ts"⟩]⟩ []
      rfl (by simp) rfl).2
     [] ⟨"r1", "m1", "hello", "hr", "cq", none, "hi", "ctx", 0, "", "ts"⟩ [] rfl (by simp) rfl⟩

/-- C9: the feedback operations modify only the two feedback fields of the
first matching turn: all other fields of that turn, the surrounding turns
and their order, the other records, and the record's id and partition
value are unchanged. -/
theorem C9_feedback_update_frame (store : ConvStore) (cid mid : String)
    (vote : Int) (text : String)
    (cpre : ConvStore) (r : ConversationRecord) (cpost : ConvStore)
    (pre : List Turn) (t : Turn) (post : List Turn)
    (hstore : store = cpre ++ r :: cpost)
    (hpre : ∀ x ∈ cpre, x.id ≠ cid) (hr : r.id = cid)
    (hconv : r.conversation = pre ++ t :: post)
    (hpre2 : ∀ u ∈ pre, u.message_id ≠ mid) (ht : t.message_id = mid) :
    upsert_feedback store cid mid vote text =
      .ok (cpre ++ { id := r.id, partition_value := r.partition_value, conversation :=
        pre ++ { t with feedback_vote := vote, feedback_text := text } :: post } :: cpost) ∧
    reset_feedback store cid mid =
      .ok (cpre ++ { id := r.id, partition_value := r.partition_value, conversation :=
        pre ++ { t with feedback_vote := 0, feedback_text := "" } :: post } :: cpost) ∧
    ({ t with feedback_vote := vote, feedback_text := text } : Turn).message_id = t.message_id ∧
    ({ t with feedback_vote := vote, feedback_text := text } : Turn).user_message = t.user_message ∧
    ({ t with feedback_vote := vote, feedback_text := text } : Turn).rephrased_message = t.rephrased_message ∧
    ({ t with feedback_vote := vote, feedback_text := text } : Turn).check_query = t.check_query ∧
    ({ t with feedback_vote := vote, feedback_text := text } : Turn).comparison_details = t.comparison_details ∧
    ({ t with feedback_vote := vote, feedback_text := text } : Turn).ai_answer = t.ai_answer ∧
    ({ t with feedback_vote := vote, feedback_text := text } : Turn).context = t.context ∧
    ({ t with feedback_vote := vote, feedback_text := text } : Turn).timestamp = t.timestamp ∧
    ({ t with feedback_vote := vote, feedback_text := text } : Turn).databricks_request_id =
      t.databricks_request_id := by
  subst hstore
  exact ⟨upsert_feedback_decomp cpre r cpost cid mid vote text pre t post hpre hr hconv hpre2 ht,
    reset_feedback_decomp cpre r cpost cid mid pre t post hpre hr hconv hpre2 ht,
    rfl, rfl, rfl, rfl, rfl, rfl, rfl, rfl, rfl⟩

/-- C9 witness: a two-turn record where the first turn matches: the second
turn, the record identity and the rest of the matching turn survive the
update. -/
theorem C9_witness :
    upsert_feedback
        [⟨"c1", "c1_partkey",
          [⟨"r1", "m1", "hello", "hr", "cq", none, "hi", "ctx", 0, "", "ts"⟩,
           ⟨"r2", "m2", "bye", "br", "bq", none, "later", "ctx2", 0, "", "ts3"⟩]⟩]
        "c1" "m1" 5 "nice" =
      .ok [⟨"c1", "c1_partkey",
        [⟨"r1", "m1", "hello", "hr", "cq", none, "hi", "ctx", 5, "nice", "ts"⟩,
         ⟨"r2", "m2", "bye", "br", "bq", none, "later", "ctx2", 0, "", "ts3"⟩]⟩] ∧
    reset_feedback
        [⟨"c1", "c1_partkey",
          [⟨"r1", "m1", "hello", "hr", "cq", none, "hi", "ctx", 0, "", "ts"⟩,
           ⟨"r2", "m2", "bye", "br", "bq", none, "later", "ctx2", 0, "", "ts3"⟩]⟩]
        "c1" "m1" =
      .ok [⟨"c1", "c1_partkey",
        [⟨"r1", "m1", "hello", "hr", "cq", none, "hi", "ctx", 0, "", "ts"⟩,
         ⟨"r2", "m2", "bye", "br", "bq", none, "later", "ctx2", 0, "", "ts3"⟩]⟩] :=
  ⟨(C9_feedback_update_frame _ "c1" "m1" 5 "nice" []
      ⟨"c1", "c1_partkey",
        [⟨"r1", "m1", "hello", "hr", "cq", none, "hi", "ctx", 0, "", "ts"⟩,
         ⟨"r2", "m2", "bye", "br", "bq", none, "later", "ctx2", 0, "", "ts3"⟩]⟩ []
      [] ⟨"r1", "m1", "hello", "hr", "cq", none, "hi", "ctx", 0, "", "ts"⟩
      [⟨"r2", "m2", "bye", "br", "bq", none, "later", "ctx2", 0, "", "ts3"⟩]
      rfl (by simp) rfl rfl (by simp) rfl).1,
   (C9_feedback_update_frame _ "c1" "m1" 5 "nice" []
      ⟨"c1", "c1_partkey",
        [⟨"r1", "m1", "hello", "hr", "cq", none, "hi", "ctx", 0, "", "ts"⟩,
         ⟨"r2", "m2", "bye", "br", "bq", none, "later", "ctx2", 0, "", "ts3"⟩]⟩ []
      [] ⟨"r1", "m1", "hello", "hr", "cq", none, "hi", "ctx", 0, "", "ts"⟩
      [⟨"r2", "m2", "bye", "br", "bq", none, "later", "ctx2", 0, "", "ts3"⟩]
      rfl (by simp) rfl rfl (by simp) rfl).2.1⟩

/-- C10: when the threads query finds a match, every feedback entry with
the retracted message id is removed (not only the first), and the
remaining entries keep their relative order (the result is a sublist
containing every non-matching entry). -/
theorem C10_retract_removes_every_match (cOk : Bool) (st : SyncState) (fid : String)
    (thread0 : Thread)
    (heq : st.threads.find? (threadHasFeedbackFor fid) = some thread0) :
    delete_feedback cOk st fid =
      .ok (true, { threads := upsertThread st.threads (removeFeedbackFromThread thread0 fid),
                   convs := resetConvsBestEffort cOk st.convs thread0.id fid }) ∧
    (∀ fb ∈ (removeFeedbackFromThread thread0 fid).feedback, fb.message_id ≠ fid) ∧
    List.Sublist (removeFeedbackFromThread thread0 fid).feedback thread0.feedback ∧
    (∀ fb ∈ thread0.feedback, fb.message_id ≠ fid →
      fb ∈ (removeFeedbackFromThread thread0 fid).feedback) := by
  refine ⟨?_, ?_, ?_, ?_⟩
  · unfold delete_feedback
    rw [heq]
  · intro fb hfb
    simp only [removeFeedbackFromThread, List.mem_filter, decide_eq_true_eq] at hfb
    exact hfb.2
  · exact List.filter_sublist _
  · intro fb hfb hne
    simp only [removeFeedbackFromThread, List.mem_filter, decide_eq_true_eq]
    exact ⟨hfb, hne⟩

/-- C10 witness: a thread with two entries for m1 around one for m2 keeps
exactly the m2 entry, in place. -/
theorem C10_witness :
    delete_feedback true
        ⟨[⟨"t1", [⟨"m1", "a", 1, none, "ts1"⟩, ⟨"m2", "b", 1, none, "ts2"⟩,
                  ⟨"m1", "c", 0, none, "ts3"⟩]⟩], []⟩ "m1" =
      .ok (true, ⟨[⟨"t1", [⟨"m2", "b", 1, none, "ts2"⟩]⟩], []⟩) :=
  (C10_retract_removes_every_match true
    ⟨[⟨"t1", [⟨"m1", "a", 1, none, "ts1"⟩, ⟨"m2", "b", 1, none, "ts2"⟩,
              ⟨"m1", "c", 0, none, "ts3"⟩]⟩], []⟩ "m1"
    ⟨"t1", [⟨"m1", "a", 1, none, "ts1"⟩, ⟨"m2", "b", 1, none, "ts2"⟩,
            ⟨"m1", "c", 0, none, "ts3"⟩]⟩ (by decide)).1

/-- C8: a sequence of recorded turns on one conversation id yields, via
get_chat_history, role-tagged messages in exactly the call order, each
input contributing a user message precisely when its user_message is
non-empty followed by an assistant message precisely when its ai_answer is
non-empty. -/
theorem C8_context_preserves_turn_order (cid : String) (inputs : List TurnInput)
    (cpre : ConvStore) (r : ConversationRecord) (cpost : ConvStore)
    (hpre : ∀ x ∈ cpre, x.id ≠ cid) (hr : r.id = cid)
    (hempty : r.conversation = []) :
    recordTurns cid (cpre ++ r :: cpost) inputs =
      .ok (cpre ++ { r with conversation := inputs.map mkTurn } :: cpost) ∧
    get_chat_history (cpre ++ { r with conversation := inputs.map mkTurn } :: cpost) cid =
      .ok ((inputs.map (fun i =>
          (if i.user_message ≠ "" then [{ role := "user", content := i.user_message }] else []) ++
            (if i.ai_answer ≠ "" then [{ role := "assistant", content := i.ai_answer }] else []))).flatten,
        cpre ++ { r with conversation := inputs.map mkTurn } :: cpost) := by
  constructor
  · have h := recordTurns_decomp cid inputs cpre r cpost hpre hr
    rw [hempty] at h
    simpa using h
  · unfold get_chat_history
    rw [getData_decomp cpre { r with conversation := inputs.map mkTurn } cpost cid hpre hr]
    dsimp only
    rw [List.map_map]
    rfl

/-- C8 witness: the scenario of the spec, one turn hello / hi there on a
fresh record c1. -/
theorem C8_witness :
    recordTurns "c1" [⟨"c1", "c1_partkey", []⟩]
        [⟨"r1", "m1", "hello", "hr", "cq", "hi there", "ctx", none, "ts"⟩] =
      .ok [⟨"c1", "c1_partkey",
        [⟨"r1", "m1", "hello", "hr", "cq", none, "hi there", "ctx", 0, "", "ts"⟩]⟩] ∧
    get_chat_history
        [⟨"c1", "c1_partkey",
          [⟨"r1", "m1", "hello", "hr", "cq", none, "hi there", "ctx", 0, "", "ts"⟩]⟩] "c1" =
      .ok ([⟨"user", "hello"⟩, ⟨"assistant", "hi there"⟩],
        [⟨"c1", "c1_partkey",
          [⟨"r1", "m1", "hello", "hr", "cq", none, "hi there", "ctx", 0, "", "ts"⟩]⟩]) :=
  C8_context_preserves_turn_order "c1"
    [⟨"r1", "m1", "hello", "hr", "cq", "hi there", "ctx", none, "ts"⟩]
    [] ⟨"c1", "c1_partkey", []⟩ [] (by simp) rfl rfl

/-- C3: submit_feedback immediately followed by retract_feedback on the
same message id returns the Conversation Store to exactly its previous
state (the matching turn back to vote 0 and empty text, which the
hypotheses say was its prior NoFeedback state) and leaves no feedback
entry for that message id in any thread of the Thread/Step Store. -/
theorem C3_submit_retract_roundtrip (st : SyncState) (message : UserMessage)
    (value : Int) (comment : Option String) (now : String)
    (cpre : ConvStore) (r : ConversationRecord) (cpost : ConvStore)
    (pre : List Turn) (t : Turn) (post : List Turn)
    (hstore : st.convs = cpre ++ r :: cpost)
    (hpre : ∀ x ∈ cpre, x.id ≠ message.thread_id)
    (hr : r.id = message.thread_id)
    (hconv : r.conversation = pre ++ t :: post)
    (hpre2 : ∀ u ∈ pre, u.message_id ≠ message.id)
    (ht : t.message_id = message.id)
    (ht0 : t.feedback_vote = 0) (htt : t.feedback_text = "")
    (hthreads : ∀ u ∈ st.threads, ∀ fb ∈ u.feedback, fb.message_id ≠ message.id) :
    submitThenRetract st message value comment now =
      .ok (true, { threads := upsertThread st.threads
                     (removeFeedbackFromThread
                       (appendFeedbackThread st.threads message.thread_id
                         (mkFeedbackEntry message value comment now)) message.id)
                   convs := st.convs }) ∧
    ∀ u ∈ upsertThread st.threads
        (removeFeedbackFromThread
          (appendFeedbackThread st.threads message.thread_id
            (mkFeedbackEntry message value comment now)) message.id),
      ∀ fb ∈ u.feedback, fb.message_id ≠ message.id := by
  have hturn : ({ t with feedback_vote := 0, feedback_text := "" } : Turn) = t := by
    rw [← ht0, ← htt]
  have hrec : ({ r with conversation := pre ++ t :: post } : ConversationRecord) = r := by
    rw [← hconv]
  have hts : ∀ u ∈ st.threads, threadHasFeedbackFor message.id u = false :=
    fun u hu => threadHasFeedbackFor_false message.id u (hthreads u hu)
  have ht1 : threadHasFeedbackFor message.id
      (appendFeedbackThread st.threads message.thread_id
        (mkFeedbackEntry message value comment now)) = true :=
    appendFeedbackThread_hasFeedback st.threads message.thread_id
      (mkFeedbackEntry message value comment now)
  have hfind : (upsertThread st.threads
      (appendFeedbackThread st.threads message.thread_id
        (mkFeedbackEntry message value comment now))).find? (threadHasFeedbackFor message.id) =
      some (appendFeedbackThread st.threads message.thread_id
        (mkFeedbackEntry message value comment now)) :=
    find?_upsertThread st.threads
      (appendFeedbackThread st.threads message.thread_id
        (mkFeedbackEntry message value comment now)) message.id hts ht1
  have hid : (appendFeedbackThread st.threads message.thread_id
      (mkFeedbackEntry message value comment now)).id = message.thread_id :=
    readThreadOrNew_id st.threads message.thread_id
  constructor
  · have hsf := store_feedback_true_true_eq st message value comment now cpre r cpost pre t post
      hstore hpre hr hconv hpre2 ht
    unfold submitThenRetract
    rw [hsf]
    dsimp only
    have hdel := delete_feedback_found_eq
      ⟨upsertThread st.threads
          (appendFeedbackThread st.threads message.thread_id
            (mkFeedbackEntry message value comment now)),
        cpre ++ { r with conversation := pre ++
          { t with feedback_vote := if value = 0 then -1 else value,
                   feedback_text := pyOptStr comment } :: post } :: cpost⟩
      message.id
      (appendFeedbackThread st.threads message.thread_id
        (mkFeedbackEntry message value comment now))
      hfind
    rw [hdel]
    dsimp only
    rw [upsertThread_upsertThread st.threads
      (appendFeedbackThread st.threads message.thread_id
        (mkFeedbackEntry message value comment now))
      (removeFeedbackFromThread
        (appendFeedbackThread st.threads message.thread_id
          (mkFeedbackEntry message value comment now)) message.id) rfl]
    have hreset : resetConvsBestEffort true
        (cpre ++ { r with conversation := pre ++
          { t with feedback_vote := if value = 0 then -1 else value,
                   feedback_text := pyOptStr comment } :: post } :: cpost)
        ((appendFeedbackThread st.threads message.thread_id
          (mkFeedbackEntry message value comment now)).id) message.id = st.convs := by
      rw [hid]
      unfold resetConvsBestEffort
      rw [if_neg (by simp : ¬ (true = false))]
      rw [reset_feedback_decomp cpre
        ({ r with conversation := pre ++
          { t with feedback_vote := if value = 0 then -1 else value,
                   feedback_text := pyOptStr comment } :: post }) cpost
        message.thread_id message.id pre
        ({ t with feedback_vote := if value = 0 then -1 else value,
                  feedback_text := pyOptStr comment }) post hpre hr rfl hpre2 ht]
      dsimp only
      rw [hturn, hrec, ← hstore]
    rw [hreset]
  · intro u hu fb hfb
    rcases mem_upsertThread st.threads
        (removeFeedbackFromThread
          (appendFeedbackThread st.threads message.thread_id
            (mkFeedbackEntry message value comment now)) message.id) u hu with h | h
    · subst h
      simp only [removeFeedbackFromThread, List.mem_filter, decide_eq_true_eq] at hfb
      exact hfb.2
    · exact hthreads u h fb hfb

/-- C3 witness: one NoFeedback turn m1 in record c1, no prior thread
feedback: submit vote 1 then retract restores the conversation record and
leaves the thread without an m1 entry. -/
theorem C3_witness :
    submitThenRetract
        ⟨[], [⟨"c1", "c1_partkey",
          [⟨"r1", "m1", "hello", "hr", "cq", none, "hi", "ctx", 0, "", "ts"⟩]⟩]⟩
        ⟨"hello", "c1", "m1"⟩ 1 (some "good") "ts2" =
      .ok (true, ⟨[⟨"c1", []⟩],
        [⟨"c1", "c1_partkey",
          [⟨"r1", "m1", "hello", "hr", "cq", none, "hi", "ctx", 0, "", "ts"⟩]⟩]⟩) :=
  (C3_submit_retract_roundtrip
    ⟨[], [⟨"c1", "c1_partkey",
      [⟨"r1", "m1", "hello", "hr", "cq", none, "hi", "ctx", 0, "", "ts"⟩]⟩]⟩
    ⟨"hello", "c1", "m1"⟩ 1 (some "good") "ts2"
    [] ⟨"c1", "c1_partkey", [⟨"r1", "m1", "hello", "hr", "cq", none, "hi", "ctx", 0, "", "ts"⟩]⟩ []
    [] ⟨"r1", "m1", "hello", "hr", "cq", none, "hi", "ctx", 0, "", "ts"⟩ []
    rfl (by simp) rfl rfl (by simp) rfl rfl rfl (by simp)).1

end FaqBot
